import Mathlib

/-!
# Verification of the DynamicsDoctor loudness-analysis state machine

Shallow embedding of the core of the `ear-fatigue-tool` repository:

* `Source/Constants.h`   — the `DynamicsStatus` enum, the preset table and
  parameter defaults;
* `Source/LoudnessMeter.cpp` — the analyzer wrapper around the external
  loudness engine (`prepare`, `reset`, `processBlock`, `getLoudnessRange`);
* `Source/PluginProcessor.cpp` — the measurement state machine
  (`prepareToPlay`, `processBlock`, `updateStatusBasedOnLRA`,
  `handleResetLRA`, `parameterChanged`, `getReportedLRA`).

Modelling conventions:

* C++ `float`/`double` values that the logic only compares and copies are
  modelled as `ℚ`; where the code can observe NaN or ±infinity (the LRA
  values coming back from the engine) we use the sum type `FloatVal`.
* dBFS peak values are produced by `juce::Decibels::gainToDecibels`, a
  strictly increasing injection from positive gains to decibels (with an
  explicit minus-infinity floor).  Since no claim depends on the numeric
  decibel value, a dB value is represented by its preimage — the gain —
  via `PeakVal`; equality of `PeakVal`s coincides with equality of the
  corresponding decibel values.
* The external loudness engine (libebur128) is a black box: each query is
  given its response as an explicit argument (`Option FloatVal`, `none`
  modelling a non-zero error code).  Engine construction success in
  `prepare` is likewise an explicit `Bool` argument.
* Null-checked parameter pointers (`bypassParam`, `presetParam`) are
  `Option ℚ` (`none` = null pointer; in the shipped revision the bypass
  parameter is commented out of the layout and `bypassParam` is never
  assigned, so it is always `none` there).  The `peak`/`lra` output
  parameters are modelled by a `has…Param` flag plus the stored value.
* `static_cast<int>` of a floating value is truncation toward zero,
  `truncToInt`.
* Note on the measuring duration: `PluginProcessor.cpp` line 9 defines a
  file-static `LRA_MEASURING_DURATION_SECONDS = 12.0f`, but the class
  `DynamicsDoctorProcessor` also declares a static member of the same
  name equal to `15.0` (`PluginProcessor.h` line 115).  Unqualified name
  lookup inside the member function `processBlock` finds the class member
  before the file-static, so the value actually used is `15.0`.
-/

/-- `enum class DynamicsStatus` from `Constants.h` (lines 34-41).  Note the
    code has no `AwaitingAudio` constructor. -/
inductive DynamicsStatus where
  | Ok
  | Reduced
  | Loss
  | Bypassed
  | Measuring
  deriving DecidableEq, Repr

/-- Modelled from the spec: the spec's `Status` set (§3) additionally has
    `AwaitingAudio`, which the code's `DynamicsStatus` lacks.  Used to state
    the spec's claims about `AwaitingAudio` over the embedded code. -/
inductive SpecStatus where
  | ok
  | reduced
  | loss
  | bypassed
  | measuring
  | awaitingAudio
  deriving DecidableEq, Repr

/-- The evident inclusion of the code's status set into the spec's. -/
def toSpecStatus : DynamicsStatus → SpecStatus
  | .Ok => .ok
  | .Reduced => .reduced
  | .Loss => .loss
  | .Bypassed => .bypassed
  | .Measuring => .measuring

/-- A C++ floating value as observed by the LRA logic: NaN, ±infinity or a
    finite value. -/
inductive FloatVal where
  | nan
  | posInf
  | negInf
  | finite (q : ℚ)
  deriving DecidableEq, Repr

/-- `std::isinf(v) || std::isnan(v) || v < 0` — the invalid-LRA test in
    `processBlock` (`PluginProcessor.cpp` line 313). -/
def FloatVal.isInvalidLRA : FloatVal → Bool
  | .nan => true
  | .posInf => true
  | .negInf => true
  | .finite q => decide (q < 0)

/-- Float comparison `v < t` against a finite threshold `t`; false on NaN
    (IEEE semantics), as in `updateStatusBasedOnLRA`. -/
def FloatVal.flt : FloatVal → ℚ → Bool
  | .nan, _ => false
  | .posInf, _ => false
  | .negInf, _ => true
  | .finite q, t => decide (q < t)

/-- A dBFS value, represented by the gain whose decibel image it is (the
    conversion `20·log10` is a strictly increasing injection on positive
    gains, so this representation preserves equality and order);
    `negInfDb` is the `-std::numeric_limits<float>::infinity()` floor. -/
inductive PeakVal where
  | negInfDb
  | dbOfGain (gain : ℚ)
  deriving DecidableEq, Repr

/-- `juce::Decibels::gainToDecibels (gain, -inf)`: minus infinity for
    non-positive gains, otherwise the (represented) decibel value. -/
def gainToDecibels (gain : ℚ) : PeakVal :=
  if 0 < gain then .dbOfGain gain else .negInfDb

/-- `struct DynamicsPreset` from `Constants.h` (lines 47-59). -/
structure DynamicsPreset where
  id : String
  label : String
  lraThresholdRed : ℚ
  lraThresholdAmber : ℚ
  targetLraMin : ℚ
  targetLraMax : ℚ
  deriving DecidableEq, Repr

/-- `const std::vector<DynamicsPreset> presets` from `Constants.h`
    (lines 62-67). -/
def presets : List DynamicsPreset :=
  [ ⟨"edm", "EDM/Club", 3, 18/5, 3, 8⟩,
    ⟨"pop_rock", "Pop/Rock", 4, 24/5, 4, 9⟩,
    ⟨"classical", "Classical/Acoustic", 6, 36/5, 6, 22⟩ ]

/-- Fallback record handed to `List.getD`; never actually selected because
    the validated index is always in range (proved below). -/
def presetGetFallback : DynamicsPreset := ⟨"", "", 0, 0, 0, 0⟩

namespace ParameterDefaults

/-- `ParameterDefaults::preset = 1` (`Constants.h` line 88). -/
def preset : ℤ := 1

/-- `ParameterDefaults::peak = -100.0f` (`Constants.h` line 89);
    `-100 dB` is the decibel image of gain `1/100000`. -/
def peak : PeakVal := .dbOfGain (1/100000)

/-- `ParameterDefaults::lra = 0.0f` (`Constants.h` line 90). -/
def lra : ℚ := 0

end ParameterDefaults

/-- `static_cast<int>` of a floating value: truncation toward zero. -/
def truncToInt (q : ℚ) : ℤ := q.num.tdiv q.den

/-- `static constexpr double AUDIO_TIMEOUT = 30.0` (`PluginProcessor.h`
    line 116).  Declared but never read anywhere in the implementation. -/
def AUDIO_TIMEOUT : ℚ := 30

/-- The measuring duration actually used by `processBlock`: the class
    member `LRA_MEASURING_DURATION_SECONDS = 15.0` (`PluginProcessor.h`
    line 115), which unqualified lookup inside the member function finds
    before the file-static `12.0f` of `PluginProcessor.cpp` line 9. -/
def LRA_MEASURING_DURATION_SECONDS_used : ℚ := 15

/-- The file-static `LRA_MEASURING_DURATION_SECONDS = 12.0f`
    (`PluginProcessor.cpp` line 9) — shadowed, hence dead. -/
def LRA_MEASURING_DURATION_SECONDS_file : ℚ := 12

/-- The audio-presence magnitude threshold `0.00001f`
    (`PluginProcessor.cpp` line 232). -/
def audioPresenceThreshold : ℚ := 1/100000

/-- State of `LoudnessMeter` (`LoudnessMeter.h/.cpp`): `prepared` models
    `state != nullptr`; `framesFed` counts the frames handed to
    `ebur128_add_frames_float`, making "the analyzer was fed" observable. -/
structure MeterState where
  prepared : Bool
  currentSampleRate : ℚ
  currentNumChannels : ℤ
  lastShortTermLUFS : FloatVal
  lastMomentaryLUFS : FloatVal
  lastLRA : FloatVal
  framesFed : ℤ
  deriving DecidableEq, Repr

namespace MeterState

/-- `LoudnessMeter::prepare` (`LoudnessMeter.cpp` lines 21-60): destroys
    the old engine, records the format, re-initializes the engine
    (`initOk` = whether `ebur128_init` succeeded); on success `reset()`
    restores the cached display values.  The `maxSamplesPerBlock`
    argument is ignored by the implementation. -/
def prepare (m : MeterState) (sampleRate : ℚ) (numChannels : ℤ)
    (_maxSamplesPerBlock : ℤ) (initOk : Bool) : MeterState :=
  let m1 : MeterState :=
    { m with prepared := false, currentSampleRate := sampleRate,
             currentNumChannels := numChannels }
  if initOk then
    { m1 with prepared := true, framesFed := 0,
              lastShortTermLUFS := .finite (-144),
              lastMomentaryLUFS := .finite (-144),
              lastLRA := .finite 0 }
  else m1

end MeterState

/-- One audio block: per-input-channel magnitudes
    (`buffer.getMagnitude(ch, 0, numSamples)`) and the sample count. -/
structure Block where
  numSamples : ℕ
  magnitudes : List ℚ
  deriving DecidableEq, Repr

namespace MeterState

/-- `LoudnessMeter::processBlock` (`LoudnessMeter.cpp` lines 73-126):
    no-op when unprepared or the block is empty, dropped on channel-count
    mismatch, otherwise the interleaved frames are fed to the engine. -/
def processBlock (m : MeterState) (b : Block) : MeterState :=
  if m.prepared = false ∨ b.numSamples = 0 then m
  else if (b.magnitudes.length : ℤ) ≠ m.currentNumChannels then m
  else { m with framesFed := m.framesFed + (b.numSamples : ℤ) }

/-- `LoudnessMeter::getLoudnessRange` (`LoudnessMeter.cpp` lines 157-167):
    `0` when unprepared; on engine success (`resp = some v`) returns `v`
    and updates the `lastLRA` cache; on engine error returns the cached
    value.  Returns the value and the updated meter. -/
def getLoudnessRange (m : MeterState) (resp : Option FloatVal) :
    FloatVal × MeterState :=
  if m.prepared = false then (.finite 0, m)
  else
    match resp with
    | some v => (v, { m with lastLRA := v })
    | none => (m.lastLRA, m)

end MeterState

/-- The processor state: the fields of `DynamicsDoctorProcessor`
    (`PluginProcessor.h` lines 88-125) that the embedded logic touches,
    plus the host-supplied configuration (`getTotalNumOutputChannels`,
    `getBlockSize`) it reads. -/
structure ProcState where
  bypassParam : Option ℚ
  presetParam : Option ℚ
  hasPeakParam : Bool
  peakParamVal : PeakVal
  hasLraParam : Bool
  lraParamVal : FloatVal
  internalSampleRate : ℚ
  samplesUntilLraUpdate : ℤ
  samplesProcessedSinceReset : ℤ
  currentPeak : PeakVal
  currentGlobalLRA : FloatVal
  currentStatus : DynamicsStatus
  meter : MeterState
  numOutputChannels : ℤ
  blockSize : ℤ
  resetLraFlag : Bool
  deriving DecidableEq, Repr

/-- `const bool bypassed = (bypassParam != nullptr) ?
    (bypassParam->load() > 0.5f) : false` (`PluginProcessor.cpp`
    line 242). -/
def readBypassFlag (s : ProcState) : Bool :=
  match s.bypassParam with
  | some v => decide (v > 1/2)
  | none => false

/-- The audio-presence scan over the input channels
    (`PluginProcessor.cpp` lines 229-237). -/
def isAudioPresentInBlock (b : Block) : Bool :=
  b.magnitudes.any (fun m => decide (m > audioPresenceThreshold))

/-- The peak scan `blockMax = max(blockMax, getMagnitude …)` starting
    from `0.0f` (`PluginProcessor.cpp` lines 277-280). -/
def blockMaxOf (b : Block) : ℚ :=
  b.magnitudes.foldl max 0

/-- The validated preset index
    (`PluginProcessor.cpp` lines 370-373). -/
def validPresetIndexOf (presetIndex : ℤ) : ℤ :=
  if 0 ≤ presetIndex ∧ presetIndex < (presets.length : ℤ) then presetIndex
  else ParameterDefaults.preset

/-- `presets[validPresetIndex]` (`PluginProcessor.cpp` line 374). -/
def selectedPresetOf (presetIndex : ℤ) : DynamicsPreset :=
  presets.getD (validPresetIndexOf presetIndex).toNat presetGetFallback

/-- The threshold chain of `updateStatusBasedOnLRA`
    (`PluginProcessor.cpp` lines 376-383). -/
def statusDecision (pr : DynamicsPreset) (measuredLRA : FloatVal) :
    DynamicsStatus :=
  if measuredLRA.flt pr.lraThresholdRed then .Loss
  else if measuredLRA.flt pr.lraThresholdAmber then .Reduced
  else .Ok

/-- `DynamicsDoctorProcessor::updateStatusBasedOnLRA`
    (`PluginProcessor.cpp` lines 357-385). -/
def updateStatusBasedOnLRA (s : ProcState) (measuredLRA : FloatVal) :
    ProcState :=
  match s.presetParam with
  | none => { s with currentStatus := .Ok }
  | some p =>
      { s with currentStatus :=
          statusDecision (selectedPresetOf (truncToInt p)) measuredLRA }

/-- The rate used inside `processBlock` whenever `internalSampleRate` may
    not yet be valid: `(internalSampleRate > 0.0) ? internalSampleRate :
    44100.0` (`PluginProcessor.cpp` lines 263 and 303). -/
def pollRateOf (s : ProcState) : ℚ :=
  if 0 < s.internalSampleRate then s.internalSampleRate else 44100

/-- The leaving-Bypassed branch of `processBlock`
    (`PluginProcessor.cpp` lines 258-274): re-prepare the meter with the
    current (or default) format, zero the LRA cache and display, zero the
    counters and enter `Measuring`. -/
def exitBypassReinit (s : ProcState) (initOk : Bool) : ProcState :=
  let rateForPrepare := pollRateOf s
  let chansForPrepare :=
    if 0 < s.numOutputChannels then s.numOutputChannels else 2
  let blockForPrepare := if 0 < s.blockSize then s.blockSize else 512
  { s with
      meter := s.meter.prepare rateForPrepare chansForPrepare
                 blockForPrepare initOk,
      currentGlobalLRA := .finite 0,
      lraParamVal := if s.hasLraParam then .finite 0 else s.lraParamVal,
      samplesProcessedSinceReset := 0,
      samplesUntilLraUpdate := 0,
      currentStatus := .Measuring }

/-- Peak tracking of `processBlock` (`PluginProcessor.cpp` lines 277-283):
    `currentPeak` is set from the block maximum and mirrored to the peak
    parameter when its pointer is non-null. -/
def stagePeak (s : ProcState) (b : Block) : ProcState :=
  { s with
      currentPeak := gainToDecibels (blockMaxOf b),
      peakParamVal :=
        if s.hasPeakParam then gainToDecibels (blockMaxOf b)
        else s.peakParamVal }

/-- `loudnessMeter.processBlock(buffer)` (`PluginProcessor.cpp`
    line 286). -/
def stageFeed (s : ProcState) (b : Block) : ProcState :=
  { s with meter := s.meter.processBlock b }

/-- The gated counter increment (`PluginProcessor.cpp` lines 293-296). -/
def stageCount (s : ProcState) (b : Block) : ProcState :=
  if s.currentStatus = .Measuring ∧ isAudioPresentInBlock b then
    { s with samplesProcessedSinceReset :=
        s.samplesProcessedSinceReset + (b.numSamples : ℤ) }
  else s

/-- `samplesUntilLraUpdate -= buffer.getNumSamples()`
    (`PluginProcessor.cpp` line 299). -/
def stageCountdown (s : ProcState) (b : Block) : ProcState :=
  { s with samplesUntilLraUpdate :=
      s.samplesUntilLraUpdate - (b.numSamples : ℤ) }

/-- The body of the fired periodic poll (`PluginProcessor.cpp`
    lines 302-350): reset the countdown by adding `(int) rate`, fetch the
    LRA (updating the meter cache), clamp invalid values to `0`, store to
    the cache and the display parameter, then either gate the transition
    out of `Measuring` on `rate × 15.0` audio-present samples or
    re-evaluate the settled status. -/
def pollUpdate (s : ProcState) (resp : Option FloatVal) : ProcState :=
  let rate := pollRateOf s
  let s1 : ProcState :=
    { s with samplesUntilLraUpdate :=
        s.samplesUntilLraUpdate + truncToInt rate }
  let fetched := s1.meter.getLoudnessRange resp
  let newLRA :=
    if fetched.1.isInvalidLRA then FloatVal.finite 0 else fetched.1
  let s2 : ProcState :=
    { s1 with
        meter := fetched.2,
        currentGlobalLRA := newLRA,
        lraParamVal := if s1.hasLraParam then newLRA else s1.lraParamVal }
  let minSamplesForReliableLRA :=
    truncToInt (rate * LRA_MEASURING_DURATION_SECONDS_used)
  if s2.currentStatus = .Measuring then
    if minSamplesForReliableLRA ≤ s2.samplesProcessedSinceReset then
      updateStatusBasedOnLRA s2 newLRA
    else s2
  else updateStatusBasedOnLRA s2 newLRA

/-- `DynamicsDoctorProcessor::processBlock` (`PluginProcessor.cpp`
    lines 208-352), as a function of the state, the block, the engine's
    LRA response for a poll fired in this block, and engine-init success
    for the leaving-Bypassed re-prepare. -/
def processBlock (s : ProcState) (b : Block) (resp : Option FloatVal)
    (initOk : Bool) : ProcState :=
  if readBypassFlag s then { s with currentStatus := .Bypassed }
  else
    let s1 :=
      if s.currentStatus = .Bypassed then exitBypassReinit s initOk else s
    let s5 := stageCountdown (stageCount (stageFeed (stagePeak s1 b) b) b) b
    if s5.samplesUntilLraUpdate ≤ 0 then pollUpdate s5 resp else s5

/-- `DynamicsDoctorProcessor::handleResetLRA` (`PluginProcessor.cpp`
    lines 389-433): aborts when `internalSampleRate <= 0.0`; otherwise
    re-prepares the meter (channels defaulting to 2, block size to 512),
    zeroes the LRA cache/display and the counters, and enters
    `Measuring`. -/
def handleResetLRA (s : ProcState) (initOk : Bool) : ProcState :=
  if s.internalSampleRate ≤ 0 then s
  else
    let numChannelsForMeter :=
      if s.numOutputChannels = 0 then 2 else s.numOutputChannels
    let blockSizeToUse := if s.blockSize = 0 then 512 else s.blockSize
    { s with
        meter := s.meter.prepare s.internalSampleRate numChannelsForMeter
                   blockSizeToUse initOk,
        currentGlobalLRA := .finite 0,
        lraParamVal := if s.hasLraParam then .finite 0 else s.lraParamVal,
        samplesProcessedSinceReset := 0,
        samplesUntilLraUpdate := 0,
        currentStatus := .Measuring }

/-- The parameter ids the listener reacts to (`PluginProcessor.cpp`
    lines 434-498). -/
inductive ParamId where
  | resetLra
  | preset
  | other
  deriving DecidableEq, Repr

/-- `DynamicsDoctorProcessor::parameterChanged` (`PluginProcessor.cpp`
    lines 434-498): `resetLra` going true runs the reset and writes the
    trigger back to false; a preset change runs the same reset. -/
def parameterChanged (s : ProcState) (pid : ParamId) (newValue : ℚ)
    (initOk : Bool) : ProcState :=
  match pid with
  | .resetLra =>
      if newValue > 1/2 then
        { handleResetLRA s initOk with resetLraFlag := false }
      else s
  | .preset => handleResetLRA s initOk
  | .other => s

/-- `DynamicsDoctorProcessor::prepareToPlay` (`PluginProcessor.cpp`
    lines 163-185). -/
def prepareToPlay (s : ProcState) (newSampleRate : ℚ)
    (samplesPerBlock : ℤ) (initOk : Bool) : ProcState :=
  let numChannelsForMeter :=
    if s.numOutputChannels = 0 then 2 else s.numOutputChannels
  { s with
      internalSampleRate := newSampleRate,
      meter := s.meter.prepare newSampleRate numChannelsForMeter
                 samplesPerBlock initOk,
      currentPeak := ParameterDefaults.peak,
      currentGlobalLRA := .finite 0,
      lraParamVal := if s.hasLraParam then .finite 0 else s.lraParamVal,
      samplesProcessedSinceReset := 0,
      samplesUntilLraUpdate := 0,
      currentStatus := .Measuring }

/-- `DynamicsDoctorProcessor::getReportedLRA` (`PluginProcessor.cpp`
    line 554). -/
def getReportedLRA (s : ProcState) : FloatVal := s.currentGlobalLRA

/-- `DynamicsDoctorProcessor::getCurrentStatus` (`PluginProcessor.cpp`
    line 553). -/
def getCurrentStatus (s : ProcState) : DynamicsStatus := s.currentStatus

/-! ## Derived observers (abbreviations over the embedded code, used to
    state the characterization lemmas below) -/

/-- The status value `updateStatusBasedOnLRA` writes: `Ok` when the preset
    pointer is null, otherwise the threshold decision for the validated
    preset. -/
def statusDecisionOf (s : ProcState) (v : FloatVal) : DynamicsStatus :=
  match s.presetParam with
  | none => .Ok
  | some p => statusDecision (selectedPresetOf (truncToInt p)) v

/-- The (clamped) LRA value a fired poll stores: the meter's answer with
    NaN/±infinity/negative clamped to `0`. -/
def polledLRAOf (s : ProcState) (resp : Option FloatVal) : FloatVal :=
  if (s.meter.getLoudnessRange resp).1.isInvalidLRA then .finite 0
  else (s.meter.getLoudnessRange resp).1

/-- The `rate × 15.0` sample threshold gating the exit from `Measuring`. -/
def minSamplesOf (s : ProcState) : ℤ :=
  truncToInt (pollRateOf s * LRA_MEASURING_DURATION_SECONDS_used)

/-! ## Concrete states used by witnesses and counterexamples -/

/-- A prepared meter at 48 kHz stereo, as left by `prepare` on success. -/
def meter48k : MeterState :=
  { prepared := true, currentSampleRate := 48000, currentNumChannels := 2,
    lastShortTermLUFS := .finite (-144), lastMomentaryLUFS := .finite (-144),
    lastLRA := .finite 0, framesFed := 0 }

/-- A processor state as configured in the shipped revision (no bypass
    parameter, preset "Pop/Rock", 48 kHz), just after `prepareToPlay` plus
    one second of countdown budget. -/
def baseState : ProcState :=
  { bypassParam := none, presetParam := some 1, hasPeakParam := true,
    peakParamVal := ParameterDefaults.peak, hasLraParam := true,
    lraParamVal := .finite 0, internalSampleRate := 48000,
    samplesUntilLraUpdate := 48000, samplesProcessedSinceReset := 0,
    currentPeak := ParameterDefaults.peak, currentGlobalLRA := .finite 0,
    currentStatus := .Measuring, meter := meter48k,
    numOutputChannels := 2, blockSize := 512, resetLraFlag := false }

/-- A 480-sample stereo block carrying audio well above the presence
    threshold. -/
def loudBlock : Block := { numSamples := 480, magnitudes := [1/2, 1/2] }

/-- A 480-sample stereo block of digital silence. -/
def silentBlock : Block := { numSamples := 480, magnitudes := [0, 0] }

/-- A one-second (48000-sample) stereo block of digital silence. -/
def silentSecond : Block := { numSamples := 48000, magnitudes := [0, 0] }

/-- A prepared meter whose last successfully cached LRA is 7 LU. -/
def meterC8 : MeterState := { meter48k with lastLRA := .finite 7 }

/-- A 31-second (1488000-sample at 48 kHz) stereo block of digital
    silence — longer than the declared 30-second `AUDIO_TIMEOUT`. -/
def silent31s : Block := { numSamples := 1488000, magnitudes := [0, 0] }

/-- A `Measuring` state that has already accumulated 1000 samples, far
    from the next poll. -/
def sMeas1000 : ProcState :=
  { baseState with
      samplesProcessedSinceReset := 1000,
      samplesUntilLraUpdate := 1000000 }

/-! ## Helper lemmas -/

/-- For a preset with ordered thresholds, the decision chain of
    `updateStatusBasedOnLRA` splits `[0,∞)` (indeed all of `ℚ`) into the
    three expected buckets, with strict `<` so that a value equal to a
    threshold lands in the better bucket. -/
theorem statusDecision_finite_partition (pr : DynamicsPreset) (x : ℚ)
    (hra : pr.lraThresholdRed < pr.lraThresholdAmber) :
    (statusDecision pr (.finite x) = .Loss ↔ x < pr.lraThresholdRed) ∧
    (statusDecision pr (.finite x) = .Reduced ↔
      pr.lraThresholdRed ≤ x ∧ x < pr.lraThresholdAmber) ∧
    (statusDecision pr (.finite x) = .Ok ↔ pr.lraThresholdAmber ≤ x) := by
  simp only [statusDecision, FloatVal.flt, decide_eq_true_eq]
  split_ifs with h1 h2
  · refine ⟨by simp [h1], ?_, ?_⟩
    · simp only [reduceCtorEq, false_iff]
      rintro ⟨hr, -⟩
      exact absurd h1 (not_lt.mpr hr)
    · simp only [reduceCtorEq, false_iff, not_le]
      exact lt_trans h1 hra
  · refine ⟨?_, by simp [h2, not_lt.mp h1], ?_⟩
    · simp only [reduceCtorEq, false_iff, not_lt]
      exact not_lt.mp h1
    · simp only [reduceCtorEq, false_iff, not_le]
      exact h2
  · refine ⟨?_, ?_, by simp [not_lt.mp h2]⟩
    · simp only [reduceCtorEq, false_iff, not_lt]
      exact le_trans (le_of_lt hra) (not_lt.mp h2)
    · simp only [reduceCtorEq, false_iff]
      rintro ⟨-, ha⟩
      exact absurd ha (not_lt.mpr (not_lt.mp h2))

/-- Evaluation of the preset selection at index 0. -/
theorem selectedPresetOf_zero :
    selectedPresetOf 0 = ⟨"edm", "EDM/Club", 3, 18/5, 3, 8⟩ := rfl

/-- Evaluation of the preset selection at index 1. -/
theorem selectedPresetOf_one :
    selectedPresetOf 1 = ⟨"pop_rock", "Pop/Rock", 4, 24/5, 4, 9⟩ := rfl

/-- Evaluation of the preset selection at index 2. -/
theorem selectedPresetOf_two :
    selectedPresetOf 2 = ⟨"classical", "Classical/Acoustic", 6, 36/5, 6, 22⟩ :=
  rfl

/-- When the preset parameter is present, `updateStatusBasedOnLRA` sets the
    status from the validated-index preset and touches nothing else. -/
theorem updateStatus_currentStatus (s : ProcState) (p : ℚ) (v : FloatVal)
    (hp : s.presetParam = some p) :
    (updateStatusBasedOnLRA s v).currentStatus =
      statusDecision (selectedPresetOf (truncToInt p)) v := by
  simp [updateStatusBasedOnLRA, hp]

/-! ## Claims -/

/-- C1: for every valid preset and every measured LRA value `x ≥ 0`, the
    decision rule yields Loss below `lraThresholdRed`, Reduced between the
    two thresholds and Ok from `lraThresholdAmber` up, with strict `<`
    comparisons (a value equal to a threshold falls in the better bucket);
    the thresholds of the selected preset are strictly ordered, so the rule
    partitions `[0,∞)` into three contiguous intervals without gaps or
    overlaps. -/
theorem claim_C1_threshold_partition (s : ProcState) (p x : ℚ)
    (hp : s.presetParam = some p)
    (h0 : 0 ≤ truncToInt p) (h3 : truncToInt p < (presets.length : ℤ))
    (hx : 0 ≤ x) :
    (selectedPresetOf (truncToInt p)).lraThresholdRed <
      (selectedPresetOf (truncToInt p)).lraThresholdAmber ∧
    ((updateStatusBasedOnLRA s (.finite x)).currentStatus = .Loss ↔
      x < (selectedPresetOf (truncToInt p)).lraThresholdRed) ∧
    ((updateStatusBasedOnLRA s (.finite x)).currentStatus = .Reduced ↔
      (selectedPresetOf (truncToInt p)).lraThresholdRed ≤ x ∧
        x < (selectedPresetOf (truncToInt p)).lraThresholdAmber) ∧
    ((updateStatusBasedOnLRA s (.finite x)).currentStatus = .Ok ↔
      (selectedPresetOf (truncToInt p)).lraThresholdAmber ≤ x) := by
  rw [updateStatus_currentStatus s p (.finite x) hp]
  have hlen : (presets.length : ℤ) = 3 := by decide
  rw [hlen] at h3
  have hi : truncToInt p = 0 ∨ truncToInt p = 1 ∨ truncToInt p = 2 := by
    omega
  rcases hi with hi | hi | hi <;> rw [hi] <;>
    refine ⟨?_, statusDecision_finite_partition _ _ ?_⟩ <;>
    simp only [selectedPresetOf_zero, selectedPresetOf_one,
      selectedPresetOf_two] <;>
    norm_num

/-- Witness for C1 at the "Pop/Rock" preset and `x = 4`: the hypotheses
    hold and the partition statement evaluates there. -/
theorem claim_C1_threshold_partition_witness :
    (selectedPresetOf (truncToInt 1)).lraThresholdRed <
      (selectedPresetOf (truncToInt 1)).lraThresholdAmber ∧
    ((updateStatusBasedOnLRA baseState (.finite 4)).currentStatus = .Loss ↔
      4 < (selectedPresetOf (truncToInt 1)).lraThresholdRed) ∧
    ((updateStatusBasedOnLRA baseState (.finite 4)).currentStatus = .Reduced ↔
      (selectedPresetOf (truncToInt 1)).lraThresholdRed ≤ 4 ∧
        4 < (selectedPresetOf (truncToInt 1)).lraThresholdAmber) ∧
    ((updateStatusBasedOnLRA baseState (.finite 4)).currentStatus = .Ok ↔
      (selectedPresetOf (truncToInt 1)).lraThresholdAmber ≤ 4) :=
  claim_C1_threshold_partition baseState 1 4 rfl (by decide) (by decide)
    (by norm_num)

/-- C9: every externally supplied preset index outside `[0, presetCount)`
    falls back to the fixed default preset index, the status update then
    uses the default preset's thresholds, and the validated index is in
    bounds for every input (so the table is never indexed out of
    bounds). -/
theorem claim_C9_preset_fallback (s : ProcState) (p : ℚ) (v : FloatVal)
    (hp : s.presetParam = some p)
    (hout : ¬ (0 ≤ truncToInt p ∧ truncToInt p < (presets.length : ℤ))) :
    validPresetIndexOf (truncToInt p) = ParameterDefaults.preset ∧
    (updateStatusBasedOnLRA s v).currentStatus =
      statusDecision
        (presets.getD (ParameterDefaults.preset).toNat presetGetFallback) v ∧
    ∀ i : ℤ, 0 ≤ validPresetIndexOf i ∧
      validPresetIndexOf i < (presets.length : ℤ) := by
  refine ⟨by simp [validPresetIndexOf, hout], ?_, ?_⟩
  · rw [updateStatus_currentStatus s p v hp]
    simp [selectedPresetOf, validPresetIndexOf, hout]
  · intro i
    unfold validPresetIndexOf
    split_ifs with h
    · exact h
    · exact ⟨by decide, by decide⟩

/-- Witness for C9 at index 99 (only 3 presets defined): fallback to the
    default index without out-of-bounds access. -/
theorem claim_C9_preset_fallback_witness :
    validPresetIndexOf (truncToInt 99) = ParameterDefaults.preset ∧
    (updateStatusBasedOnLRA { baseState with presetParam := some 99 }
        (.finite 10)).currentStatus =
      statusDecision
        (presets.getD (ParameterDefaults.preset).toNat presetGetFallback)
        (.finite 10) ∧
    0 ≤ validPresetIndexOf 99 ∧
      validPresetIndexOf 99 < (presets.length : ℤ) :=
  have h :=
    claim_C9_preset_fallback { baseState with presetParam := some 99 } 99
      (.finite 10) rfl (by decide)
  ⟨h.1, h.2.1, h.2.2 99⟩

/-- C10: when the internal sample rate is not yet valid (`≤ 0`), the reset
    action returns early leaving the whole processor state — status,
    cached LRA, display parameter, counters and meter — unchanged. -/
theorem claim_C10_reset_early_return (s : ProcState) (initOk : Bool)
    (h : s.internalSampleRate ≤ 0) :
    handleResetLRA s initOk = s := by
  simp [handleResetLRA, h]

/-- Witness for C10: a concrete state with sample rate 0 passes through
    the reset untouched. -/
theorem claim_C10_reset_early_return_witness :
    handleResetLRA { baseState with internalSampleRate := 0 } true =
      { baseState with internalSampleRate := 0 } :=
  claim_C10_reset_early_return { baseState with internalSampleRate := 0 }
    true (by decide)

/-- `updateStatusBasedOnLRA` as a single-field update: only
    `currentStatus` changes. -/
theorem updateStatus_eq (s : ProcState) (v : FloatVal) :
    updateStatusBasedOnLRA s v =
      { s with currentStatus := statusDecisionOf s v } := by
  cases h : s.presetParam <;>
    simp [updateStatusBasedOnLRA, statusDecisionOf, h]

/-- The peak/feed/count/countdown stage chain of `processBlock` as a
    single record update. -/
theorem stages_eq (s1 : ProcState) (b : Block) :
    stageCountdown (stageCount (stageFeed (stagePeak s1 b) b) b) b =
      { s1 with
          currentPeak := gainToDecibels (blockMaxOf b),
          peakParamVal :=
            if s1.hasPeakParam then gainToDecibels (blockMaxOf b)
            else s1.peakParamVal,
          meter := s1.meter.processBlock b,
          samplesProcessedSinceReset :=
            if s1.currentStatus = .Measuring ∧ isAudioPresentInBlock b then
              s1.samplesProcessedSinceReset + (b.numSamples : ℤ)
            else s1.samplesProcessedSinceReset,
          samplesUntilLraUpdate :=
            s1.samplesUntilLraUpdate - (b.numSamples : ℤ) } := by
  simp only [stagePeak, stageFeed, stageCount, stageCountdown]
  split <;> rfl

/-- A fired poll as a single record update: the countdown is topped up by
    `(int) rate`, the meter cache and the two LRA stores take the clamped
    value, the counter is untouched, and the status either stays
    `Measuring` (below the `rate × 15.0` gate) or is re-decided. -/
theorem pollUpdate_eq (s : ProcState) (resp : Option FloatVal) :
    pollUpdate s resp =
      { s with
          samplesUntilLraUpdate :=
            s.samplesUntilLraUpdate + truncToInt (pollRateOf s),
          meter := (s.meter.getLoudnessRange resp).2,
          currentGlobalLRA := polledLRAOf s resp,
          lraParamVal :=
            if s.hasLraParam then polledLRAOf s resp else s.lraParamVal,
          currentStatus :=
            if s.currentStatus = .Measuring ∧
                s.samplesProcessedSinceReset < minSamplesOf s then
              s.currentStatus
            else statusDecisionOf s (polledLRAOf s resp) } := by
  have hfold :
      truncToInt (pollRateOf s * LRA_MEASURING_DURATION_SECONDS_used) =
        minSamplesOf s := rfl
  simp only [pollUpdate, updateStatus_eq, hfold]
  by_cases hm : s.currentStatus = DynamicsStatus.Measuring
  · by_cases hc : minSamplesOf s ≤ s.samplesProcessedSinceReset
    · simp [hm, hc, not_lt.mpr hc, statusDecisionOf, polledLRAOf]
    · simp [hm, hc, not_le.mp hc, statusDecisionOf, polledLRAOf]
  · simp [hm, statusDecisionOf, polledLRAOf]

/-- `processBlock` outside Bypassed handling: the stage chain followed by
    the countdown-gated poll. -/
theorem processBlock_not_bypassed (s : ProcState) (b : Block)
    (resp : Option FloatVal) (initOk : Bool)
    (hb : readBypassFlag s = false) (hs : s.currentStatus ≠ .Bypassed) :
    processBlock s b resp initOk =
      (if s.samplesUntilLraUpdate - (b.numSamples : ℤ) ≤ 0 then
        pollUpdate
          (stageCountdown (stageCount (stageFeed (stagePeak s b) b) b) b)
          resp
      else
        stageCountdown (stageCount (stageFeed (stagePeak s b) b) b) b) := by
  have hcd :
      (stageCountdown (stageCount (stageFeed (stagePeak s b) b) b)
          b).samplesUntilLraUpdate =
        s.samplesUntilLraUpdate - (b.numSamples : ℤ) := by
    rw [stages_eq]
  simp only [processBlock, hb, Bool.false_eq_true, if_false, hs, ite_false,
    hcd]

/-- The bypassed early exit: only the status changes. -/
theorem processBlock_bypassed (s : ProcState) (b : Block)
    (resp : Option FloatVal) (initOk : Bool)
    (hb : readBypassFlag s = true) :
    processBlock s b resp initOk = { s with currentStatus := .Bypassed } := by
  simp [processBlock, hb]

/-- The leaving-Bypassed path: the reinit branch zeroes the countdown, so
    the poll necessarily fires in the same block. -/
theorem processBlock_exit_bypass (s : ProcState) (b : Block)
    (resp : Option FloatVal) (initOk : Bool)
    (hb : readBypassFlag s = false) (hs : s.currentStatus = .Bypassed) :
    processBlock s b resp initOk =
      pollUpdate
        (stageCountdown
          (stageCount (stageFeed (stagePeak (exitBypassReinit s initOk) b) b)
            b) b) resp := by
  have hcd :
      (stageCountdown
          (stageCount (stageFeed (stagePeak (exitBypassReinit s initOk) b) b)
            b) b).samplesUntilLraUpdate = -(b.numSamples : ℤ) := by
    rw [stages_eq]
    simp [exitBypassReinit]
  have hle :
      (stageCountdown
          (stageCount (stageFeed (stagePeak (exitBypassReinit s initOk) b) b)
            b) b).samplesUntilLraUpdate ≤ 0 := by
    rw [hcd]
    omega
  simp only [processBlock, hb, Bool.false_eq_true, if_false, hs, ite_true,
    hle]

/-- An invalid LRA value can never be the clamped `FloatVal.finite 0`. -/
theorem invalid_ne_finite_zero (v : FloatVal)
    (hv : v.isInvalidLRA = true) : FloatVal.finite 0 ≠ v := by
  intro he
  rw [← he] at hv
  norm_num [FloatVal.isInvalidLRA] at hv

/-- With an invalid engine answer, the clamped poll value is exactly 0,
    whatever the meter state. -/
theorem polledLRAOf_invalid (s1 : ProcState) (v : FloatVal)
    (hv : v.isInvalidLRA = true) :
    polledLRAOf s1 (some v) = .finite 0 := by
  unfold polledLRAOf MeterState.getLoudnessRange
  by_cases hp : s1.meter.prepared = false
  · norm_num [hp, FloatVal.isInvalidLRA]
  · simp [hp, hv]

/-- C7: an LRA value delivered by the engine at a poll that is NaN,
    ±infinity or negative is stored as exactly 0 — both in the cached LRA
    read back by `getReportedLRA` and in the LRA display parameter — and
    the invalid value itself is never propagated to the getter. -/
theorem claim_C7_invalid_lra_clamped (s : ProcState) (b : Block)
    (v : FloatVal) (initOk : Bool)
    (hb : readBypassFlag s = false)
    (hv : v.isInvalidLRA = true)
    (hfire : s.samplesUntilLraUpdate ≤ (b.numSamples : ℤ)) :
    getReportedLRA (processBlock s b (some v) initOk) = .finite 0 ∧
    getReportedLRA (processBlock s b (some v) initOk) ≠ v ∧
    (s.hasLraParam = true →
      (processBlock s b (some v) initOk).lraParamVal = .finite 0) := by
  by_cases hs : s.currentStatus = DynamicsStatus.Bypassed
  · rw [processBlock_exit_bypass s b (some v) initOk hb hs, pollUpdate_eq]
    rw [stages_eq]
    refine ⟨?_, ?_, ?_⟩
    · simp [getReportedLRA, polledLRAOf_invalid _ v hv]
    · simp [getReportedLRA, polledLRAOf_invalid _ v hv,
        invalid_ne_finite_zero v hv]
    · intro hhas
      simp [polledLRAOf_invalid _ v hv, exitBypassReinit, hhas]
  · rw [processBlock_not_bypassed s b (some v) initOk hb hs]
    have hle : s.samplesUntilLraUpdate - (b.numSamples : ℤ) ≤ 0 := by omega
    rw [if_pos hle, pollUpdate_eq, stages_eq]
    refine ⟨?_, ?_, ?_⟩
    · simp [getReportedLRA, polledLRAOf_invalid _ v hv]
    · simp [getReportedLRA, polledLRAOf_invalid _ v hv,
        invalid_ne_finite_zero v hv]
    · intro hhas
      simp [polledLRAOf_invalid _ v hv, hhas]

/-- Witness for C7: a NaN delivered at a firing poll on a concrete state
    reaches the getter as exactly 0. -/
theorem claim_C7_invalid_lra_clamped_witness :
    getReportedLRA
        (processBlock { baseState with samplesUntilLraUpdate := 100 }
          loudBlock (some .nan) true) = .finite 0 ∧
    getReportedLRA
        (processBlock { baseState with samplesUntilLraUpdate := 100 }
          loudBlock (some .nan) true) ≠ .nan ∧
    (processBlock { baseState with samplesUntilLraUpdate := 100 }
        loudBlock (some .nan) true).lraParamVal = .finite 0 :=
  have h :=
    claim_C7_invalid_lra_clamped
      { baseState with samplesUntilLraUpdate := 100 } loudBlock .nan true
      rfl rfl (by decide)
  ⟨h.1, h.2.1, h.2.2 rfl⟩

/-- C8 counterexample: `getLoudnessRange` does NOT clamp a negative
    engine answer to 0 — a successful query returning −5 LU is passed to
    the caller as −5, refuting "never returns a negative number to
    callers". -/
theorem claim_C8_counterexample :
    (meterC8.getLoudnessRange (some (.finite (-5)))).1 = .finite (-5) ∧
    ((-5 : ℚ) < 0) := by
  constructor
  · rfl
  · norm_num

/-- C8 as amended: `getLoudnessRange` returns 0 when the engine is not
    prepared; on a successful query it returns the engine's value as-is
    (negative values included) and caches it; on a failed query it
    returns the last successfully cached value unchanged. -/
theorem claim_C8_amended (m : MeterState) (v : FloatVal)
    (h : m.prepared = true) :
    (m.getLoudnessRange none).1 = m.lastLRA ∧
    (m.getLoudnessRange none).2 = m ∧
    (m.getLoudnessRange (some v)).1 = v ∧
    (m.getLoudnessRange (some v)).2.lastLRA = v ∧
    (∀ m2 : MeterState, m2.prepared = false →
      (m2.getLoudnessRange (some v)).1 = .finite 0) := by
  refine ⟨?_, ?_, ?_, ?_, ?_⟩ <;>
    simp [MeterState.getLoudnessRange, h]
  intro m2 h2
  simp [MeterState.getLoudnessRange, h2]

/-- Witness for C8 (amended) on a concrete prepared meter caching 7 LU,
    with engine answer −5 LU. -/
theorem claim_C8_amended_witness :
    (meterC8.getLoudnessRange none).1 = meterC8.lastLRA ∧
    (meterC8.getLoudnessRange none).2 = meterC8 ∧
    (meterC8.getLoudnessRange (some (.finite (-5)))).1 = .finite (-5) ∧
    (meterC8.getLoudnessRange (some (.finite (-5)))).2.lastLRA =
      .finite (-5) ∧
    (({ meter48k with prepared := false } : MeterState).getLoudnessRange
        (some (.finite (-5)))).1 = .finite 0 :=
  have h := claim_C8_amended meterC8 (.finite (-5)) rfl
  ⟨h.1, h.2.1, h.2.2.1, h.2.2.2.1,
    h.2.2.2.2 { meter48k with prepared := false } rfl⟩

/-- The status written by `updateStatusBasedOnLRA` is always one of the
    three settled values. -/
theorem statusDecisionOf_settled (s : ProcState) (v : FloatVal) :
    statusDecisionOf s v = .Ok ∨ statusDecisionOf s v = .Reduced ∨
      statusDecisionOf s v = .Loss := by
  cases hp : s.presetParam with
  | none => simp [statusDecisionOf, hp]
  | some p =>
      simp only [statusDecisionOf, hp]
      unfold statusDecision
      split_ifs <;> simp

/-- C3 counterexample: a silent block observed while in `Measuring` does
    NOT revert the status to `AwaitingAudio` (the code's status type has
    no such state — the status stays `Measuring`) and does NOT zero the
    accumulated sample counter. -/
theorem claim_C3_counterexample :
    toSpecStatus
        (processBlock
          { baseState with
              samplesProcessedSinceReset := 1000,
              samplesUntilLraUpdate := 1000000 }
          silentBlock (some (.finite 10)) true).currentStatus =
      SpecStatus.measuring ∧
    SpecStatus.measuring ≠ SpecStatus.awaitingAudio ∧
    (processBlock
        { baseState with
            samplesProcessedSinceReset := 1000,
            samplesUntilLraUpdate := 1000000 }
        silentBlock (some (.finite 10)) true).samplesProcessedSinceReset =
      1000 ∧
    (1000 : ℤ) ≠ 0 := by
  rw [processBlock_not_bypassed
    { baseState with
        samplesProcessedSinceReset := 1000,
        samplesUntilLraUpdate := 1000000 }
    silentBlock (some (.finite 10)) true rfl (by simp [baseState])]
  rw [if_neg (by norm_num [baseState, silentBlock]), stages_eq]
  refine ⟨?_, by simp, ?_, by norm_num⟩
  · simp [toSpecStatus, baseState]
  · norm_num [baseState, isAudioPresentInBlock, silentBlock,
      audioPresenceThreshold]

/-- C3 as amended: samples are counted toward the measuring duration only
    in blocks whose magnitude scan finds audio (linear threshold
    `0.00001`, ≈ −100 dBFS) and only while the status is `Measuring`; a
    silent block never changes the counter, and while `Measuring` a
    silent block that does not fire the poll leaves the status at
    `Measuring` (there is no `AwaitingAudio` revert). -/
theorem claim_C3_amended (s : ProcState) (b : Block)
    (resp : Option FloatVal) (initOk : Bool)
    (hb : readBypassFlag s = false)
    (hs : s.currentStatus ≠ .Bypassed) :
    (isAudioPresentInBlock b = false →
      (processBlock s b resp initOk).samplesProcessedSinceReset =
        s.samplesProcessedSinceReset) ∧
    (s.currentStatus ≠ .Measuring →
      (processBlock s b resp initOk).samplesProcessedSinceReset =
        s.samplesProcessedSinceReset) ∧
    (isAudioPresentInBlock b = true → s.currentStatus = .Measuring →
      (processBlock s b resp initOk).samplesProcessedSinceReset =
        s.samplesProcessedSinceReset + (b.numSamples : ℤ)) ∧
    (isAudioPresentInBlock b = false → s.currentStatus = .Measuring →
      (b.numSamples : ℤ) < s.samplesUntilLraUpdate →
      (processBlock s b resp initOk).currentStatus = .Measuring) := by
  rw [processBlock_not_bypassed s b resp initOk hb hs]
  refine ⟨?_, ?_, ?_, ?_⟩
  · intro hnp
    split_ifs with hf
    · rw [pollUpdate_eq, stages_eq]
      simp [hnp]
    · rw [stages_eq]
      simp [hnp]
  · intro hnm
    split_ifs with hf
    · rw [pollUpdate_eq, stages_eq]
      simp [hnm]
    · rw [stages_eq]
      simp [hnm]
  · intro hap hm
    split_ifs with hf
    · rw [pollUpdate_eq, stages_eq]
      simp [hap, hm]
    · rw [stages_eq]
      simp [hap, hm]
  · intro hnp hm hcd
    rw [if_neg (by omega), stages_eq]
    simp [hm]

/-- Witness for C3 (amended) at concrete inputs: a silent block leaves
    the counter and the `Measuring` status untouched, a loud block adds
    exactly its sample count. -/
theorem claim_C3_amended_witness :
    (processBlock sMeas1000 silentBlock (some (.finite 10))
        true).samplesProcessedSinceReset =
      sMeas1000.samplesProcessedSinceReset ∧
    (processBlock sMeas1000 loudBlock (some (.finite 10))
        true).samplesProcessedSinceReset =
      sMeas1000.samplesProcessedSinceReset + (loudBlock.numSamples : ℤ) ∧
    (processBlock sMeas1000 silentBlock (some (.finite 10))
        true).currentStatus = .Measuring :=
  have hsil : isAudioPresentInBlock silentBlock = false := by
    norm_num [isAudioPresentInBlock, silentBlock, audioPresenceThreshold]
  have hloud : isAudioPresentInBlock loudBlock = true := by
    norm_num [isAudioPresentInBlock, loudBlock, audioPresenceThreshold]
  ⟨(claim_C3_amended sMeas1000 silentBlock (some (.finite 10)) true rfl
      (by simp [sMeas1000, baseState])).1 hsil,
    (claim_C3_amended sMeas1000 loudBlock (some (.finite 10)) true rfl
      (by simp [sMeas1000, baseState])).2.2.1 hloud rfl,
    (claim_C3_amended sMeas1000 silentBlock (some (.finite 10)) true rfl
      (by simp [sMeas1000, baseState])).2.2.2 hsil rfl
      (by norm_num [sMeas1000, baseState, silentBlock])⟩

/-- After leaving Bypassed, the stage chain is in `Measuring`. -/
theorem exitChain_status (s : ProcState) (b : Block) (initOk : Bool) :
    (stageCountdown
        (stageCount (stageFeed (stagePeak (exitBypassReinit s initOk) b) b)
          b) b).currentStatus = .Measuring := by
  rw [stages_eq]
  simp [exitBypassReinit]

/-- After leaving Bypassed, the counter holds just this block's samples
    (0 for a silent block). -/
theorem exitChain_counter (s : ProcState) (b : Block) (initOk : Bool) :
    (stageCountdown
        (stageCount (stageFeed (stagePeak (exitBypassReinit s initOk) b) b)
          b) b).samplesProcessedSinceReset =
      (if isAudioPresentInBlock b then (b.numSamples : ℤ) else 0) := by
  rw [stages_eq]
  by_cases hap : isAudioPresentInBlock b <;> simp [exitBypassReinit, hap]

/-- The exit-bypass chain does not change the internal sample rate. -/
theorem exitChain_rate (s : ProcState) (b : Block) (initOk : Bool) :
    (stageCountdown
        (stageCount (stageFeed (stagePeak (exitBypassReinit s initOk) b) b)
          b) b).internalSampleRate = s.internalSampleRate := by
  rw [stages_eq]
  simp [exitBypassReinit]

/-- The exit-bypass chain recomputes the peak from the incoming block. -/
theorem exitChain_peak (s : ProcState) (b : Block) (initOk : Bool) :
    (stageCountdown
        (stageCount (stageFeed (stagePeak (exitBypassReinit s initOk) b) b)
          b) b).currentPeak = gainToDecibels (blockMaxOf b) := by
  rw [stages_eq]

/-- The measuring gate after the exit-bypass chain equals the gate of the
    original state. -/
theorem exitChain_min (s : ProcState) (b : Block) (initOk : Bool) :
    minSamplesOf
        (stageCountdown
          (stageCount (stageFeed (stagePeak (exitBypassReinit s initOk) b) b)
            b) b) = minSamplesOf s := by
  unfold minSamplesOf pollRateOf
  rw [exitChain_rate]

/-- C4 counterexample: leaving Bypassed lands in `Measuring`, not in the
    spec's `AwaitingAudio` (which the code's status type does not even
    contain). -/
theorem claim_C4_counterexample :
    toSpecStatus
        (processBlock { baseState with currentStatus := .Bypassed }
          silentBlock (some (.finite 10)) true).currentStatus =
      SpecStatus.measuring ∧
    SpecStatus.measuring ≠ SpecStatus.awaitingAudio := by
  refine ⟨?_, by simp⟩
  rw [processBlock_exit_bypass { baseState with currentStatus := .Bypassed }
    silentBlock (some (.finite 10)) true rfl rfl, pollUpdate_eq]
  rw [exitChain_status, exitChain_counter, exitChain_min]
  norm_num [baseState, silentBlock, isAudioPresentInBlock,
    audioPresenceThreshold, minSamplesOf, pollRateOf, truncToInt,
    LRA_MEASURING_DURATION_SECONDS_used, toSpecStatus]

/-- C4 as amended: while the bypass flag reads true the machine is in
    `Bypassed` and nothing else changes (the analyzer is not fed, no
    counter advances); leaving Bypassed re-enters `Measuring` (not an
    `AwaitingAudio` state) with the counter holding only the current
    block's samples and the peak display recomputed from the incoming
    block rather than zeroed. -/
theorem claim_C4_amended (s : ProcState) (b : Block)
    (resp : Option FloatVal) (initOk : Bool) :
    (readBypassFlag s = true →
      processBlock s b resp initOk = { s with currentStatus := .Bypassed }) ∧
    (readBypassFlag s = false → s.currentStatus = .Bypassed →
      (b.numSamples : ℤ) < minSamplesOf s →
      (processBlock s b resp initOk).currentStatus = .Measuring ∧
      (processBlock s b resp initOk).samplesProcessedSinceReset =
        (if isAudioPresentInBlock b then (b.numSamples : ℤ) else 0) ∧
      (processBlock s b resp initOk).currentPeak =
        gainToDecibels (blockMaxOf b)) := by
  constructor
  · intro hb
    exact processBlock_bypassed s b resp initOk hb
  · intro hb hs hlt
    rw [processBlock_exit_bypass s b resp initOk hb hs, pollUpdate_eq]
    have hcnt :
        (if isAudioPresentInBlock b then (b.numSamples : ℤ) else 0) <
          minSamplesOf s := by
      split <;> omega
    refine ⟨?_, ?_, ?_⟩
    · simp only [exitChain_status, exitChain_counter, exitChain_min]
      rw [if_pos ⟨trivial, hcnt⟩]
    · simp only [exitChain_counter]
    · simp only [exitChain_peak]

/-- Witness for C4 (amended): both branches at concrete inputs — a state
    reading a true bypass flag freezes into `Bypassed`; a Bypassed state
    with the flag absent re-enters `Measuring`. -/
theorem claim_C4_amended_witness :
    processBlock { baseState with bypassParam := some 1 } silentBlock
        (some (.finite 10)) true =
      { { baseState with bypassParam := some 1 } with
          currentStatus := .Bypassed } ∧
    (processBlock { baseState with currentStatus := .Bypassed } silentBlock
        (some (.finite 10)) true).currentStatus = .Measuring ∧
    (processBlock { baseState with currentStatus := .Bypassed } silentBlock
        (some (.finite 10)) true).samplesProcessedSinceReset =
      (if isAudioPresentInBlock silentBlock then
        (silentBlock.numSamples : ℤ) else 0) ∧
    (processBlock { baseState with currentStatus := .Bypassed } silentBlock
        (some (.finite 10)) true).currentPeak =
      gainToDecibels (blockMaxOf silentBlock) :=
  have h2 :=
    (claim_C4_amended { baseState with currentStatus := .Bypassed }
        silentBlock (some (.finite 10)) true).2 rfl rfl
      (by norm_num [silentBlock, minSamplesOf, pollRateOf, baseState,
        truncToInt, LRA_MEASURING_DURATION_SECONDS_used])
  ⟨(claim_C4_amended { baseState with bypassParam := some 1 } silentBlock
      (some (.finite 10)) true).1 (by norm_num [readBypassFlag]),
    h2.1, h2.2.1, h2.2.2⟩

/-- C5 counterexample: (a) with no valid sample rate the reset does NOT
    fall back to 44.1 kHz — it drops the whole request, leaving the state
    (meter included) untouched; (b) with a valid rate the reset sets the
    status to `Measuring`, not `AwaitingAudio`, and (c) does not zero the
    peak cache. -/
theorem claim_C5_counterexample :
    handleResetLRA
        { baseState with internalSampleRate := 0, currentStatus := .Ok }
        true =
      { baseState with internalSampleRate := 0, currentStatus := .Ok } ∧
    toSpecStatus
        (handleResetLRA { baseState with currentPeak := .dbOfGain (1/2) }
          true).currentStatus = SpecStatus.measuring ∧
    SpecStatus.measuring ≠ SpecStatus.awaitingAudio ∧
    (handleResetLRA { baseState with currentPeak := .dbOfGain (1/2) }
        true).currentPeak = .dbOfGain (1/2) ∧
    PeakVal.dbOfGain (1/2) ≠ ParameterDefaults.peak := by
  refine ⟨?_, ?_, by simp, ?_, ?_⟩
  · norm_num [handleResetLRA]
  · norm_num [handleResetLRA, baseState, toSpecStatus]
  · norm_num [handleResetLRA, baseState]
  · simp only [ParameterDefaults.peak, ne_eq, PeakVal.dbOfGain.injEq]
    norm_num

/-- C5 as amended: when the sample rate is valid, the reset re-prepares
    the analyzer with the current rate (channels defaulting to 2 and
    block size to 512 when the host has not supplied them), zeroes the
    LRA cache/display and both counters, and sets the status to
    `Measuring`; the peak cache is untouched; a preset change runs
    exactly the same reset, and the reset parameter firing true runs it
    and clears the trigger back to false. -/
theorem claim_C5_amended (s : ProcState) (initOk : Bool) (v : ℚ)
    (h : 0 < s.internalSampleRate) :
    (handleResetLRA s initOk).currentStatus = .Measuring ∧
    (handleResetLRA s initOk).currentGlobalLRA = .finite 0 ∧
    (s.hasLraParam = true →
      (handleResetLRA s initOk).lraParamVal = .finite 0) ∧
    (handleResetLRA s initOk).samplesProcessedSinceReset = 0 ∧
    (handleResetLRA s initOk).samplesUntilLraUpdate = 0 ∧
    (handleResetLRA s initOk).currentPeak = s.currentPeak ∧
    (handleResetLRA s initOk).meter =
      s.meter.prepare s.internalSampleRate
        (if s.numOutputChannels = 0 then 2 else s.numOutputChannels)
        (if s.blockSize = 0 then 512 else s.blockSize) initOk ∧
    parameterChanged s .preset v initOk = handleResetLRA s initOk ∧
    (v > 1/2 → parameterChanged s .resetLra v initOk =
      { handleResetLRA s initOk with resetLraFlag := false }) := by
  have hne : ¬ s.internalSampleRate ≤ 0 := not_le.mpr h
  refine ⟨?_, ?_, ?_, ?_, ?_, ?_, ?_, ?_, ?_⟩
  · simp [handleResetLRA, hne]
  · simp [handleResetLRA, hne]
  · intro hhas
    simp [handleResetLRA, hne, hhas]
  · simp [handleResetLRA, hne]
  · simp [handleResetLRA, hne]
  · simp [handleResetLRA, hne]
  · simp [handleResetLRA, hne]
  · simp [parameterChanged]
  · intro hv
    simp only [parameterChanged]
    rw [if_pos hv]

/-- Witness for C5 (amended) on a concrete prepared 48 kHz state. -/
theorem claim_C5_amended_witness :
    (handleResetLRA baseState true).currentStatus = .Measuring ∧
    (handleResetLRA baseState true).currentGlobalLRA = .finite 0 ∧
    (handleResetLRA baseState true).lraParamVal = .finite 0 ∧
    (handleResetLRA baseState true).samplesProcessedSinceReset = 0 ∧
    (handleResetLRA baseState true).samplesUntilLraUpdate = 0 ∧
    (handleResetLRA baseState true).currentPeak = baseState.currentPeak ∧
    (handleResetLRA baseState true).meter =
      baseState.meter.prepare baseState.internalSampleRate
        (if baseState.numOutputChannels = 0 then 2
          else baseState.numOutputChannels)
        (if baseState.blockSize = 0 then 512 else baseState.blockSize)
        true ∧
    parameterChanged baseState .preset 2 true =
      handleResetLRA baseState true ∧
    parameterChanged baseState .resetLra 2 true =
      { handleResetLRA baseState true with resetLraFlag := false } :=
  have h := claim_C5_amended baseState true 2 (by norm_num [baseState])
  ⟨h.1, h.2.1, h.2.2.1 rfl, h.2.2.2.1, h.2.2.2.2.1, h.2.2.2.2.2.1,
    h.2.2.2.2.2.2.1, h.2.2.2.2.2.2.2.1,
    h.2.2.2.2.2.2.2.2 (by norm_num)⟩

/-- C6 counterexample: a settled `Ok` state fed 31 seconds of silence —
    longer than the declared 30-second `AUDIO_TIMEOUT` — does NOT
    transition to `AwaitingAudio` (no such state exists and no watchdog
    is implemented): it stays `Ok`. -/
theorem claim_C6_counterexample :
    AUDIO_TIMEOUT < (silent31s.numSamples : ℚ) / 48000 ∧
    toSpecStatus
        (processBlock { baseState with currentStatus := .Ok } silent31s
          (some (.finite 10)) true).currentStatus = SpecStatus.ok ∧
    SpecStatus.ok ≠ SpecStatus.awaitingAudio := by
  refine ⟨by norm_num [AUDIO_TIMEOUT, silent31s], ?_, by simp⟩
  rw [processBlock_not_bypassed { baseState with currentStatus := .Ok }
    silent31s (some (.finite 10)) true rfl (by simp [baseState])]
  rw [if_pos (by norm_num [baseState, silent31s]), pollUpdate_eq, stages_eq]
  norm_num [baseState, silent31s, isAudioPresentInBlock,
    audioPresenceThreshold, statusDecisionOf, selectedPresetOf,
    validPresetIndexOf, presets, statusDecision, FloatVal.flt,
    polledLRAOf, MeterState.getLoudnessRange, MeterState.processBlock,
    meter48k, FloatVal.isInvalidLRA, toSpecStatus,
    ParameterDefaults.preset, truncToInt]

/-- C6 as amended: no silence watchdog exists (`AUDIO_TIMEOUT` is
    declared but never read): from a settled state `Ok`/`Reduced`/`Loss`,
    processing any block — silent for however long — leaves the machine
    in a settled state; silence never produces a transition to a waiting
    state. -/
theorem claim_C6_amended (s : ProcState) (b : Block)
    (resp : Option FloatVal) (initOk : Bool)
    (hb : readBypassFlag s = false)
    (hs : s.currentStatus = .Ok ∨ s.currentStatus = .Reduced ∨
      s.currentStatus = .Loss) :
    (processBlock s b resp initOk).currentStatus = .Ok ∨
    (processBlock s b resp initOk).currentStatus = .Reduced ∨
    (processBlock s b resp initOk).currentStatus = .Loss := by
  have hnb : s.currentStatus ≠ .Bypassed := by
    rcases hs with h | h | h <;> simp [h]
  have hnm : s.currentStatus ≠ .Measuring := by
    rcases hs with h | h | h <;> simp [h]
  rw [processBlock_not_bypassed s b resp initOk hb hnb]
  split_ifs with hf
  · rw [pollUpdate_eq, stages_eq]
    simp only [hnm]
    simp [hnm]
    exact statusDecisionOf_settled _ _
  · rw [stages_eq]
    simpa using hs

/-- Witness for C6 (amended) on a concrete settled `Ok` state and a
    silent block. -/
theorem claim_C6_amended_witness :
    (processBlock { baseState with currentStatus := .Ok } silentBlock
        (some (.finite 10)) true).currentStatus = .Ok ∨
    (processBlock { baseState with currentStatus := .Ok } silentBlock
        (some (.finite 10)) true).currentStatus = .Reduced ∨
    (processBlock { baseState with currentStatus := .Ok } silentBlock
        (some (.finite 10)) true).currentStatus = .Loss :=
  claim_C6_amended { baseState with currentStatus := .Ok } silentBlock
    (some (.finite 10)) true rfl (Or.inl rfl)

/-- C2: the measuring-duration divergence.  At 48 kHz with the "Pop/Rock"
    preset and a polled LRA of 10 LU, a state that has accumulated
    `48000 × 12` audio-present samples (the 12 seconds the claim
    specifies) stays in `Measuring` at the poll, because the gate the
    code actually applies is `48000 × 15.0` — the class constant that
    unqualified lookup selects over the file-static `12.0f` the code's
    own comment claims is used; only from `48000 × 15` samples does the
    transition to `Ok` happen. -/
theorem claim_C2_measuring_duration_code_eval :
    (processBlock
        { baseState with
            samplesProcessedSinceReset := 576000,
            samplesUntilLraUpdate := 0 }
        loudBlock (some (.finite 10)) true).currentStatus = .Measuring ∧
    (processBlock
        { baseState with
            samplesProcessedSinceReset := 720000,
            samplesUntilLraUpdate := 0 }
        loudBlock (some (.finite 10)) true).currentStatus = .Ok ∧
    (576000 : ℤ) =
      truncToInt (48000 * LRA_MEASURING_DURATION_SECONDS_file) ∧
    (720000 : ℤ) =
      truncToInt (48000 * LRA_MEASURING_DURATION_SECONDS_used) := by
  refine ⟨?_, ?_, ?_, ?_⟩
  · rw [processBlock_not_bypassed
      { baseState with
          samplesProcessedSinceReset := 576000,
          samplesUntilLraUpdate := 0 }
      loudBlock (some (.finite 10)) true rfl (by simp [baseState])]
    rw [if_pos (by norm_num [baseState, loudBlock]), pollUpdate_eq,
      stages_eq]
    norm_num [baseState, loudBlock, isAudioPresentInBlock,
      audioPresenceThreshold, minSamplesOf, pollRateOf, truncToInt,
      LRA_MEASURING_DURATION_SECONDS_used]
  · rw [processBlock_not_bypassed
      { baseState with
          samplesProcessedSinceReset := 720000,
          samplesUntilLraUpdate := 0 }
      loudBlock (some (.finite 10)) true rfl (by simp [baseState])]
    rw [if_pos (by norm_num [baseState, loudBlock]), pollUpdate_eq,
      stages_eq]
    norm_num [baseState, loudBlock, isAudioPresentInBlock,
      audioPresenceThreshold, minSamplesOf, pollRateOf, truncToInt,
      LRA_MEASURING_DURATION_SECONDS_used, statusDecisionOf,
      selectedPresetOf, validPresetIndexOf, presets, statusDecision,
      FloatVal.flt, polledLRAOf, MeterState.getLoudnessRange,
      MeterState.processBlock, meter48k, FloatVal.isInvalidLRA,
      ParameterDefaults.preset]
  · norm_num [truncToInt, LRA_MEASURING_DURATION_SECONDS_file]
  · norm_num [truncToInt, LRA_MEASURING_DURATION_SECONDS_used]
